import Mathlib

/-!
Verification of the Resume-Skill-Extractor core algorithms against their
specification.

The definitions below are a shallow embedding of the Python source:

* app/processing/embeddings.py  : embed_text, cosine_similarity
* app/database/crud.py          : match_job_description, rank_resumes,
                                  ml_rank_resumes, save_resume, get_all_resumes
* app/ml/train_ranker.py        : train
* app/database/models.py        : the Resume row and its cgpa CHECK constraint

Conventions of the embedding:

* Python floats are modelled as rationals.
* A TEXT column that is consumed through json.loads is modelled by
  StoredText: a falsy column value (NULL or the empty string), a non-empty
  string that is not valid JSON (json.loads raises JSONDecodeError), or a
  parsed JSON value.
* Parsed JSON values are the inductive JValue.  A parsed object is an
  association list with distinct keys (json.loads collapses duplicates),
  in insertion order.
* Python exceptions are modelled with Except PyErr; the error constructors
  name the Python exception class that escapes the expression.
* The sentence-transformer encoder and the scikit-learn estimator are
  external libraries, not repository code: they enter as explicit function
  parameters (encode, fit, predict).  numpy square root is likewise passed
  as a parameter sq, constrained only where a property needs it.
-/

/-- Whitespace recognised by Python str.strip with no argument (ASCII
range; the resumes and queries handled by the app are ASCII text). -/
def isSpaceChar (c : Char) : Bool :=
  c = ' ' || c = '\t' || c = '\n' || c = '\r' || c = '\x0b' || c = '\x0c'

/-- Python str.strip(): remove leading and trailing whitespace. -/
def pyStrip (s : String) : String :=
  String.mk (((s.data.dropWhile isSpaceChar).reverse.dropWhile isSpaceChar).reverse)

/-- Python str.lower() on one character (ASCII range). -/
def pyCharLower (c : Char) : Char :=
  if c.toNat ≥ 65 && c.toNat ≤ 90 then Char.ofNat (c.toNat + 32) else c

/-- Python str.lower() (ASCII range). -/
def pyLower (s : String) : String :=
  String.mk (s.data.map pyCharLower)

/-- Python exception classes that the embedded code can surface. -/
inductive PyErr where
  | typeError
  | valueError
  | attributeError
  | keyError
  deriving DecidableEq

/-- A parsed JSON value (the result of a successful json.loads).
Objects are association lists with pairwise-distinct keys, in insertion
order, matching the dict produced by json.loads. -/
inductive JValue where
  | jnull
  | jbool (b : Bool)
  | jnum (q : ℚ)
  | jstr (s : String)
  | jarr (xs : List JValue)
  | jobj (fields : List (String × JValue))

/-- The state of a nullable TEXT column that the code feeds to json.loads.
falsy covers both NULL and the empty string (Python truthiness groups
them, and the SQL filter in match_job_description excludes exactly them);
invalid is a non-empty string on which json.loads raises JSONDecodeError;
valid v is a non-empty string that parses to v. -/
inductive StoredText where
  | falsy
  | invalid
  | valid (v : JValue)

/-- The Resume row fields the core algorithms read (models.py). -/
structure Resume where
  name : String
  cgpa : Option ℚ
  skills : StoredText
  experience : StoredText
  embedding : StoredText
  hired : Nat

/-- Truthiness conversion used on the cgpa column: the expression
float(r.cgpa) if r.cgpa else 0.0 (and r.cgpa or 0.0), where both None
and 0.0 are falsy. -/
def cgpaOrZero (c : Option ℚ) : ℚ :=
  match c with
  | none => 0
  | some x => if x = 0 then 0 else x

/-- Python len() on a parsed JSON value: defined for lists, dicts and
strings, TypeError otherwise (numbers, booleans, None have no len). -/
def pyLen : JValue → Except PyErr Nat
  | .jarr xs => .ok xs.length
  | .jobj fields => .ok fields.length
  | .jstr s => .ok s.length
  | _ => .error .typeError

/-- Python dict.get(k, d) on a parsed JSON object. -/
def dictGet (fields : List (String × JValue)) (k : String) (d : JValue) : JValue :=
  match fields.find? (fun kv => kv.1 == k) with
  | some kv => kv.2
  | none => d

/-- Python dict[k] on a parsed JSON object: KeyError when absent. -/
def dictIndex (fields : List (String × JValue)) (k : String) : Except PyErr JValue :=
  match fields.find? (fun kv => kv.1 == k) with
  | some kv => .ok kv.2
  | none => .error .keyError

/-- Sum of squares of a vector; it is zero exactly when the euclidean
norm is zero. -/
def sumsq (a : List ℚ) : ℚ := (a.map (fun x => x * x)).sum

/-- Dot product of two vectors of equal length. -/
def dot (a b : List ℚ) : ℚ := ((a.zip b).map (fun p => p.1 * p.2)).sum

/-- Embedding of cosine_similarity (embeddings.py lines 26-35).
sq stands for the numpy square root, so sq (sumsq a) * sq (sumsq b) is
the denominator np.linalg.norm(va) * np.linalg.norm(vb).  The source
returns 0.0 when either list is empty (before any numpy call) and when
the denominator is zero; otherwise it evaluates np.dot(va, vb), which
raises ValueError when the two 1-D arrays have different lengths. -/
def cosine_similarity (sq : ℚ → ℚ) (a b : List ℚ) : Except PyErr ℚ :=
  if a.isEmpty || b.isEmpty then .ok 0
  else
    let denom := sq (sumsq a) * sq (sumsq b)
    if denom = 0 then .ok 0
    else if a.length = b.length then .ok (dot a b / denom)
    else .error .valueError

/-- Embedding of embed_text (embeddings.py lines 18-24): an empty string
is falsy and short-circuits to []; any other string (including
whitespace-only ones) is stripped and handed to the encoder. -/
def embed_text (encode : String → List ℚ) (text : String) : List ℚ :=
  if text.isEmpty then [] else encode (pyStrip text)

/-- Numeric value of a JSON scalar as numpy sees it: numbers are
themselves and booleans are 1/0; everything else is non-numeric. -/
def jnumVal : JValue → Option ℚ
  | .jnum q => some q
  | .jbool b => some (if b then 1 else 0)
  | _ => none

/-- True when the parsed JSON value is an array. -/
def isJArr : JValue → Bool
  | .jarr _ => true
  | _ => false

/-- True when the parsed JSON value is null or an object.  As elements
of the list handed to np.array, these force an object dtype. -/
def isJNullOrObj : JValue → Bool
  | .jnull => true
  | .jobj _ => true
  | _ => false

/-- True when the parsed JSON value is a string.  As elements of the
list handed to np.array (with no null or dict present), these force a
unicode dtype. -/
def isJStr : JValue → Bool
  | .jstr _ => true
  | _ => false

/-- The element list of a parsed JSON array; used only on values known
to be arrays. -/
def jarrElems : JValue → List JValue
  | .jarr ys => ys
  | _ => []

/-- The numeric values of a list of parsed JSON scalars, in order
(numbers are themselves, booleans are 1/0). -/
def numVals (xs : List JValue) : List ℚ :=
  xs.filterMap jnumVal

/-- cosine_similarity as called from match_job_description, where the
second argument is the parsed JSON list stored on the row, following
the numpy pipeline of the source step by step:

* the truthiness guard of cosine_similarity returns 0.0 for an empty
  list before any numpy call;
* a list mixing sequences with scalars, or whose sub-lists have unequal
  lengths, makes np.array raise ValueError (inhomogeneous shape), which
  escapes the matching loop into the outer handler;
* a uniform list of sub-lists builds a 2-D array: sub-elements that are
  themselves arrays give a deeper array, modelled as the generic shape
  ValueError of np.dot; a null or dict sub-element forces object dtype,
  on which the norm's x.dot(x) raises TypeError; a string sub-element
  forces unicode dtype, on which the norm's astype(float) raises
  ValueError; an all-numeric (n, k) array has the Frobenius norm of its
  flattened values, so a zero denominator still returns 0.0, then
  np.dot of the 1-D query against it raises ValueError unless the row
  count equals the query dimension, in which case the result has shape
  (k,) and float() raises TypeError unless k = 1, where the score is
  the matrix product divided by the norms;
* a scalar list with a null or dict element is an object-dtype array:
  np.linalg.norm takes its 1-D fast path x.dot(x), whose element-wise
  products raise TypeError (caught by the loop, record skipped);
* a scalar list with a string element (and no null/dict) is a
  unicode-dtype array: np.linalg.norm converts with astype(float),
  which raises ValueError for non-numeric text (the model treats every
  string element this way; a string that itself parses as a float would
  instead convert here and fail later in np.dot — the application never
  stores strings inside embeddings, which are serialised float lists);
* an all-numeric scalar list proceeds into cosine_similarity on its
  values. -/
def cosinePy (sq : ℚ → ℚ) (a : List ℚ) (xs : List JValue) : Except PyErr ℚ :=
  if a.isEmpty || xs.isEmpty then .ok 0
  else if xs.any isJArr then
    if xs.all isJArr then
      let rows := xs.map jarrElems
      let k := (rows.headD []).length
      if rows.all (fun r => r.length = k) then
        if rows.any (fun r => r.any isJArr) then .error .valueError
        else if rows.any (fun r => r.any isJNullOrObj) then .error .typeError
        else if rows.any (fun r => r.any isJStr) then .error .valueError
        else
          let flat := numVals rows.flatten
          let denom := sq (sumsq a) * sq (sumsq flat)
          if denom = 0 then .ok 0
          else if xs.length ≠ a.length then .error .valueError
          else if k ≠ 1 then .error .typeError
          else .ok (dot a flat / denom)
      else .error .valueError
    else .error .valueError
  else if xs.any isJNullOrObj then .error .typeError
  else if xs.any isJStr then .error .valueError
  else cosine_similarity sq a (numVals xs)

/-- Insertion of an element into a list that is sorted by descending
score, placing it after any element of equal score (the stable order
produced by Python list.sort with reverse=True). -/
def insertDesc {α : Type} (score : α → ℚ) (x : α) : List α → List α
  | [] => [x]
  | y :: ys => if score y < score x then x :: y :: ys else y :: insertDesc score x ys

/-- Stable sort by descending score, modelling
scored.sort(key=lambda x: x[1], reverse=True). -/
def sortDesc {α : Type} (score : α → ℚ) (l : List α) : List α :=
  l.foldl (fun acc x => insertDesc score x acc) []

/-- Sortedness by non-increasing score. -/
abbrev SortedByDesc {α : Type} (score : α → ℚ) (l : List α) : Prop :=
  l.Pairwise (fun x y => score y ≤ score x)

/-- Lowercasing pass of a Python list comprehension over the elements of
an iterable JSON value, modelling s.lower() element by element: a
non-string element raises AttributeError at the first occurrence. -/
def lowerList : List JValue → Except PyErr (List String)
  | [] => .ok []
  | .jstr s :: rest => (lowerList rest).map (fun ls => pyLower s :: ls)
  | _ :: _ => .error .attributeError

/-- Embedding of the comprehension over skills_dict.get("technical", [])
in rank_resumes: iterating a list visits its elements, iterating a
string visits its one-character substrings, iterating a dict visits its
keys; numbers, booleans and None are not iterable (TypeError). -/
def lowerElems : JValue → Except PyErr (List String)
  | .jarr xs => lowerList xs
  | .jstr s => .ok (s.data.map (fun c => pyLower (String.singleton c)))
  | .jobj fields => .ok (fields.map (fun kv => pyLower kv.1))
  | _ => .error .typeError

/-- Embedding of the technical-skill extraction of rank_resumes (crud.py
lines 339-343).  A falsy skills column gives the empty dict, whose get
returns the default []; JSONDecodeError is caught and gives []; a parsed
non-dict value has no attribute get (AttributeError escapes, since the
except clause catches only JSONDecodeError); a parsed dict is read with
get("technical", []) and lowercased element by element. -/
def techSkills : StoredText → Except PyErr (List String)
  | .falsy => .ok []
  | .invalid => .ok []
  | .valid (.jobj fields) => lowerElems (dictGet fields "technical" (.jarr []))
  | .valid _ => .error .attributeError

/-- Embedding of the experience count of rank_resumes (crud.py lines
333-336): a falsy column gives 0, JSONDecodeError is caught and gives 0,
and len() is applied to any parsed value — a TypeError from len (parsed
number, boolean or null) escapes the except clause. -/
def expEntries : StoredText → Except PyErr Nat
  | .falsy => .ok 0
  | .invalid => .ok 0
  | .valid v => pyLen v

/-- Per-record score of rank_resumes (crud.py lines 328-349), evaluated
in source order: cgpa, then experience, then skills, then the match
count over preferred_skills. -/
def ruleScore (preferred : List String) (r : Resume) : Except PyErr ℚ := do
  let cgpaVal := cgpaOrZero r.cgpa
  let expCount ← expEntries r.experience
  let tech ← techSkills r.skills
  let matchCount := preferred.countP (fun s => tech.contains (pyLower s))
  pure (cgpaVal * 2 + (matchCount : ℚ) * 3 + (expCount : ℚ))

/-- Scoring loop of rank_resumes: the first record whose score raises
aborts the whole call (rank_resumes has no surrounding except clause). -/
def collectRank (preferred : List String) : List Resume → Except PyErr (List (Resume × ℚ))
  | [] => .ok []
  | r :: rs =>
    match ruleScore preferred r with
    | .ok s => (collectRank preferred rs).map (fun rest => (r, s) :: rest)
    | .error e => .error e

/-- Embedding of rank_resumes (crud.py lines 314-355).  preferred of
none models the Python default None; an empty list is replaced by the
same default.  The scored records are sorted by descending score and the
record list is truncated to top_n. -/
def rank_resumes (preferred : Option (List String)) (db : List Resume) (top_n : Nat) :
    Except PyErr (List Resume) :=
  let ps := match preferred with
    | none => ["AI", "ML"]
    | some l => if l.isEmpty then ["AI", "ML"] else l
  (collectRank ps db).map (fun scored =>
    ((sortDesc (fun p => p.2) scored).map (fun p => p.1)).take top_n)

/-- Scoring loop of match_job_description (crud.py lines 253-271).  A
falsy embedding would raise TypeError in json.loads and an invalid one
JSONDecodeError, both caught by the loop's except clause; a parsed
non-list is skipped by the isinstance check; cosine similarity is
computed for a parsed list through the numpy pipeline of cosinePy, a
TypeError (object-dtype products, or float() on a multi-element result)
is caught and skips the record, while any other error (ValueError from
array creation, astype or np.dot) escapes the loop into the outer
handler. -/
def collectScores (sq : ℚ → ℚ) (jd : List ℚ) (minSim : ℚ) :
    List Resume → Except PyErr (List (Resume × ℚ))
  | [] => .ok []
  | r :: rs =>
    match r.embedding with
    | .valid (.jarr xs) =>
      match cosinePy sq jd xs with
      | .ok s =>
        if minSim ≤ s then
          (collectScores sq jd minSim rs).map (fun rest => (r, s) :: rest)
        else collectScores sq jd minSim rs
      | .error .typeError => collectScores sq jd minSim rs
      | .error e => .error e
    | _ => collectScores sq jd minSim rs

/-- Row filter of match_job_description: the SQL condition
embedding IS NOT NULL AND embedding != '' keeps exactly the rows whose
embedding column is not falsy. -/
def hasEmbeddingText (r : Resume) : Bool :=
  match r.embedding with
  | .falsy => false
  | _ => true

/-- Embedding of match_job_description (crud.py lines 210-282): empty or
whitespace-only query text returns []; an empty query embedding returns
[]; rows without embedding text are filtered out and an empty remainder
returns []; the scoring loop then filters by minSim, any error escaping
the loop is caught by the outer handler which returns [], and otherwise
the scored list is sorted by descending similarity and truncated. -/
def match_job_description (encode : String → List ℚ) (sq : ℚ → ℚ)
    (jd_text : String) (db : List Resume) (top_n : Nat) (minSim : ℚ) :
    List (Resume × ℚ) :=
  if (pyStrip jd_text).isEmpty then []
  else
    let jdEmb := embed_text encode jd_text
    if jdEmb.isEmpty then []
    else
      let resumes := db.filter hasEmbeddingText
      if resumes.isEmpty then []
      else
        match collectScores sq jdEmb minSim resumes with
        | .error _ => []
        | .ok scored => (sortDesc (fun p => p.2) scored).take top_n

/-- Technical-skill count feature of ml_rank_resumes and _build_features
(crud.py lines 296-300, train_ranker.py lines 26-29).  The except clause
there catches every exception, so a falsy column (TypeError in
json.loads), invalid JSON (JSONDecodeError), a non-dict value (TypeError
on subscripting), a missing key (KeyError) and a non-sized value
(TypeError in len) all collapse to 0. -/
def mlNumSkills (skills : StoredText) : Nat :=
  match skills with
  | .valid (.jobj fields) =>
    match dictIndex fields "technical" with
    | .ok v => match pyLen v with | .ok n => n | .error _ => 0
    | .error _ => 0
  | _ => 0

/-- Experience count feature of ml_rank_resumes and _build_features
(crud.py lines 301-305): as with mlNumSkills, every exception is caught
and yields 0. -/
def mlExpYears (experience : StoredText) : Nat :=
  match experience with
  | .valid v => match pyLen v with | .ok n => n | .error _ => 0
  | _ => 0

/-- The 3-entry feature row [cgpa, num_skills, exp_years] shared by
ml_rank_resumes and train_ranker. -/
def mlFeatures (r : Resume) : ℚ × Nat × Nat :=
  (cgpaOrZero r.cgpa, mlNumSkills r.skills, mlExpYears r.experience)

/-- Embedding of ml_rank_resumes (crud.py lines 287-311).  modelExists
is MODEL_PATH.exists(); when the artifact is absent the function returns
[] before touching the database or the model.  predict stands for the
unpickled classifier's predict_proba probability of class 1. -/
def ml_rank_resumes (modelExists : Bool) (predict : ℚ × Nat × Nat → ℚ)
    (db : List Resume) (top_n : Nat) : List (Resume × ℚ) :=
  if modelExists then
    let scored := db.map (fun r => (r, predict (mlFeatures r)))
    (sortDesc (fun p => p.2) scored).take top_n
  else []

/-- An opaque trained model artifact (the pickled LogisticRegression). -/
structure RankModel where
  predict : ℚ × Nat × Nat → ℚ

/-- Outcome of one call to train: an early return on empty data, a
successful fit and save, or an exception escaping to the caller. -/
inductive TrainOutcome where
  | noData
  | saved
  | raised (e : PyErr)
  deriving DecidableEq

/-- Feature/label pair of _build_features (train_ranker.py lines 23-37). -/
def build_features (r : Resume) : (ℚ × Nat × Nat) × Nat :=
  (mlFeatures r, r.hired)

/-- Embedding of train (train_ranker.py lines 40-52).  The first
component of the result is the persisted artifact after the call, the
second the outcome.  With no records the function prints and returns
without writing (the artifact is untouched and no exception is raised).
Otherwise fit models LogisticRegression().fit, which may itself raise
(for example when every label is the same class); only a successful fit
reaches pickle.dump, which replaces the artifact. -/
def train (fit : List ((ℚ × Nat × Nat) × Nat) → Except PyErr RankModel)
    (db : List Resume) (artifact : Option RankModel) :
    Option RankModel × TrainOutcome :=
  if db.isEmpty then (artifact, .noData)
  else
    match fit (db.map build_features) with
    | .ok m => (some m, .saved)
    | .error e => (artifact, .raised e)

/-- The input dictionary of save_resume, after the float() conversion of
the cgpa entry.  skills, experience and education carry the Python
values found in the dictionary (the .get defaults are applied by the
embedding's callers), as parsed JSON-like data. -/
structure ResumeData where
  name : String
  skills : JValue
  experience : JValue
  cgpa : Option ℚ
  rawText : String

/-- Skills normalisation of save_resume (crud.py lines 39-45): a
non-dict value is replaced by an empty technical/soft dict, and each of
the two keys is appended when missing. -/
def normalizeSkills (v : JValue) : JValue :=
  match v with
  | .jobj fields =>
    let f1 := if (fields.find? (fun kv => kv.1 == "technical")).isSome then fields
      else fields ++ [("technical", .jarr [])]
    let f2 := if (f1.find? (fun kv => kv.1 == "soft")).isSome then f1
      else f1 ++ [("soft", .jarr [])]
    .jobj f2
  | _ => .jobj [("technical", .jarr []), ("soft", .jarr [])]

/-- The cgpa CHECK constraint of the resumes table (models.py line 27):
cgpa >= 0 AND cgpa <= 10, vacuously satisfied by NULL.  SQLite enforces
it on INSERT, so a violating row is rejected with an IntegrityError. -/
def cgpaCheck (c : Option ℚ) : Bool :=
  match c with
  | none => true
  | some x => decide (0 ≤ x) && decide (x ≤ 10)

/-- Database-level insertion error surfaced by save_resume. -/
inductive SaveErr where
  | integrityError
  deriving DecidableEq

/-- Embedding of save_resume (crud.py lines 21-82): the skills value is
normalised and serialised, the raw text is embedded (an empty embedding
is stored as NULL), the row is built with the cgpa passed through
unchanged, and the INSERT succeeds only when the CHECK constraint on
cgpa holds; on violation the transaction is rolled back and the error
re-raised, so no row is stored. -/
def save_resume (encode : String → List ℚ) (d : ResumeData) : Except SaveErr Resume :=
  let emb := embed_text encode d.rawText
  let embStored : StoredText :=
    if emb.isEmpty then .falsy else .valid (.jarr (emb.map JValue.jnum))
  if cgpaCheck d.cgpa then
    .ok { name := d.name
          cgpa := d.cgpa
          skills := .valid (normalizeSkills d.skills)
          experience := .valid d.experience
          embedding := embStored
          hired := 0 }
  else .error .integrityError

/-- Embedding of get_all_resumes (crud.py lines 84-99):
query.offset(skip).limit(limit) over the rows in table order, with the
source's default arguments limit = 100 and skip = 0. -/
def get_all_resumes (db : List Resume) (limit : Nat := 100) (skip : Nat := 0) :
    List Resume :=
  (db.drop skip).take limit

/-- Number of entries of preferred_skills whose case-insensitive form
appears in the technical-skill list, each preferred skill counted at
most once; stated in the words of the specification, to be compared
with the count computed inside ruleScore. -/
def specMatchedSkillCount (preferred : List String) (ts : List String) : Nat :=
  (preferred.filter (fun s => ts.any (fun t => pyLower s == pyLower t))).length

/-- The score formula of the specification:
(cgpa_or_zero * 2) + (matched_preferred_skill_count * 3) +
experience_entry_count, with cgpa_or_zero the record's cgpa if present
else 0. -/
def specRuleScore (preferred : List String) (ts : List String) (expCount : Nat)
    (cgpa : Option ℚ) : ℚ :=
  cgpa.getD 0 * 2 + (specMatchedSkillCount preferred ts : ℚ) * 3 + (expCount : ℚ)

theorem mem_insertDesc {α : Type} (score : α → ℚ) (x : α) (l : List α) (z : α) :
    z ∈ insertDesc score x l ↔ z = x ∨ z ∈ l := by
  induction l with
  | nil => simp [insertDesc]
  | cons y ys ih =>
    by_cases h : score y < score x
    · simp [insertDesc, h]
    · simp [insertDesc, h, ih]
      tauto

theorem sorted_insertDesc {α : Type} (score : α → ℚ) (x : α) (l : List α)
    (hl : SortedByDesc score l) : SortedByDesc score (insertDesc score x l) := by
  induction l with
  | nil => simp [insertDesc, SortedByDesc]
  | cons y ys ih =>
    rcases List.pairwise_cons.mp hl with ⟨hy, hys⟩
    by_cases h : score y < score x
    · rw [insertDesc, if_pos h]
      refine List.pairwise_cons.mpr ⟨?_, hl⟩
      intro z hz
      rcases List.mem_cons.mp hz with rfl | hz
      · exact le_of_lt h
      · exact le_trans (hy z hz) (le_of_lt h)
    · rw [insertDesc, if_neg h]
      refine List.pairwise_cons.mpr ⟨?_, ih hys⟩
      intro z hz
      rcases (mem_insertDesc score x ys z).mp hz with rfl | hz
      · exact not_lt.mp h
      · exact hy z hz

theorem mem_sortDesc_aux {α : Type} (score : α → ℚ) (l acc : List α) (z : α) :
    z ∈ l.foldl (fun acc x => insertDesc score x acc) acc ↔ z ∈ acc ∨ z ∈ l := by
  induction l generalizing acc with
  | nil => simp
  | cons y ys ih =>
    simp only [List.foldl_cons, ih, mem_insertDesc, List.mem_cons]
    tauto

theorem mem_sortDesc {α : Type} (score : α → ℚ) (l : List α) (z : α) :
    z ∈ sortDesc score l ↔ z ∈ l := by
  simp [sortDesc, mem_sortDesc_aux]

theorem sorted_sortDesc_aux {α : Type} (score : α → ℚ) (l acc : List α)
    (hacc : SortedByDesc score acc) :
    SortedByDesc score (l.foldl (fun acc x => insertDesc score x acc) acc) := by
  induction l generalizing acc with
  | nil => exact hacc
  | cons y ys ih => exact ih _ (sorted_insertDesc score y acc hacc)

theorem sorted_sortDesc {α : Type} (score : α → ℚ) (l : List α) :
    SortedByDesc score (sortDesc score l) :=
  sorted_sortDesc_aux score l [] List.Pairwise.nil

theorem cgpaOrZero_eq_getD (c : Option ℚ) : cgpaOrZero c = c.getD 0 := by
  cases c with
  | none => rfl
  | some x =>
    by_cases h : x = 0
    · simp [cgpaOrZero, h]
    · simp [cgpaOrZero, h]

/-- C4: with no trained model artifact on disk, ml_rank_resumes returns
the empty sequence for every database state and every top_n, without
raising (the existence check runs before the model is unpickled and
before any row is read). -/
theorem ml_rank_untrained_returns_empty (predict : ℚ × Nat × Nat → ℚ)
    (db : List Resume) (top_n : Nat) :
    ml_rank_resumes false predict db top_n = [] := rfl

/-- C5 counterexample: train on an empty record sequence does not fail
with an error of any kind; it returns normally with the noData outcome
(the source prints a message and returns None) and the previously
persisted artifact unchanged.  The claim that it fails with an
InsufficientData error is therefore false on the code. -/
theorem train_empty_counterexample :
    train (fun _ => .ok ⟨fun _ => 0⟩) [] (some ⟨fun _ => 1⟩)
      = (some ⟨fun _ => 1⟩, TrainOutcome.noData) ∧
    TrainOutcome.noData ≠ TrainOutcome.raised PyErr.valueError := by
  exact ⟨rfl, by decide⟩

/-- C5 (amended): train invoked with an empty record sequence returns
early without raising any exception, reports the no-data outcome, and
leaves any previously trained model artifact untouched (no write to the
persisted model occurs on this path). -/
theorem train_empty_leaves_artifact
    (fit : List ((ℚ × Nat × Nat) × Nat) → Except PyErr RankModel)
    (artifact : Option RankModel) :
    train fit [] artifact = (artifact, TrainOutcome.noData) ∧
    ∀ e, (train fit [] artifact).2 ≠ TrainOutcome.raised e := by
  refine ⟨rfl, ?_⟩
  intro e h
  exact absurd h (by simp [train])

/-- C5 witness: the amended theorem applied to a concrete trainer and a
concrete previously saved artifact. -/
theorem train_empty_leaves_artifact_witness :
    train (fun _ => .ok ⟨fun _ => 0⟩) [] (some ⟨fun _ => 2⟩)
      = (some ⟨fun _ => 2⟩, TrainOutcome.noData) :=
  (train_empty_leaves_artifact (fun _ => .ok ⟨fun _ => 0⟩) (some ⟨fun _ => 2⟩)).1

/-- C6 counterexample: embed_text on the one-space string does not
return the empty sequence.  The guard of the source tests Python
truthiness of the raw text, so a whitespace-only string passes it, is
stripped to the empty string and handed to the encoder; the encoder (a
fixed-dimensional sentence-transformer) returns a non-empty vector on
every input.  Any encoder with non-empty output exhibits the failure. -/
theorem embed_text_whitespace_counterexample :
    embed_text (fun _ => [(1 : ℚ)]) " " = [1] ∧ ([(1 : ℚ)] : List ℚ) ≠ [] :=
  ⟨rfl, by simp⟩

/-- C6 (amended): embed_text returns the empty sequence exactly for the
empty string; a whitespace-only non-empty string passes the truthiness
guard, is stripped, and the encoder is invoked on the empty string, so
the result is whatever the model returns for it (for the configured
sentence-transformer, a non-empty fixed-dimensional vector). -/
theorem embed_text_empty_guard (encode : String → List ℚ) (t : String)
    (h : pyStrip t = "") :
    embed_text encode t = if t.isEmpty then [] else encode "" := by
  simp only [embed_text, h]

/-- C6 witness: the amended theorem applied to the one-space string and
a concrete encoder. -/
theorem embed_text_empty_guard_witness :
    embed_text (fun s => [(1 : ℚ), (s.length : ℚ)]) " " = [1, 0] := by
  rw [embed_text_empty_guard (fun s => [(1 : ℚ), (s.length : ℚ)]) " " (by decide)]
  rfl

/-- C7: rank_resumes with preferred_skills absent (None) and with the
empty list both behave exactly as with the default list AI, ML, on
every database state and every top_n. -/
theorem rank_resumes_default_substitution (db : List Resume) (top_n : Nat) :
    rank_resumes none db top_n = rank_resumes (some ["AI", "ML"]) db top_n ∧
    rank_resumes (some []) db top_n = rank_resumes (some ["AI", "ML"]) db top_n :=
  ⟨rfl, rfl⟩

/-- C10: get_all_resumes with its default arguments returns the first
100 rows in table order: never more than 100, and strictly fewer than
the table size whenever the table holds more than 100 resumes, so the
rows beyond the default limit are absent from the result. -/
theorem get_all_resumes_default_limit (db : List Resume) :
    (get_all_resumes db).length ≤ 100 ∧
    get_all_resumes db = db.take 100 ∧
    (100 < db.length → (get_all_resumes db).length < db.length) := by
  refine ⟨?_, ?_, ?_⟩
  · simp [get_all_resumes, List.length_take]
  · simp [get_all_resumes]
  · intro h
    simp only [get_all_resumes, List.drop_zero, List.length_take]
    omega

/-- C10 witness: on a store of 101 records the default call returns
fewer records than the store holds. -/
theorem get_all_resumes_default_limit_witness :
    100 < (List.replicate 101 (Resume.mk "r" none .falsy .falsy .falsy 0)).length ∧
    (get_all_resumes (List.replicate 101 (Resume.mk "r" none .falsy .falsy .falsy 0))).length
      < (List.replicate 101 (Resume.mk "r" none .falsy .falsy .falsy 0)).length :=
  ⟨by simp, (get_all_resumes_default_limit _).2.2 (by simp)⟩

theorem sumsq_nonneg (a : List ℚ) : 0 ≤ sumsq a := by
  refine List.sum_nonneg ?_
  intro x hx
  rcases List.mem_map.mp hx with ⟨y, _, rfl⟩
  exact mul_self_nonneg y

/-- C9 counterexample: cosine_similarity raises.  For two non-empty
vectors of nonzero norm but different dimensions the denominator check
passes and np.dot raises ValueError (shapes not aligned), which the
function does not catch.  The square root is instantiated with the
identity map, which agrees with the real square root on the two values
that occur (1 and 2 only need to be nonzero). -/
theorem cosine_similarity_counterexample :
    cosine_similarity (fun q => q) [1] [1, 1] = .error PyErr.valueError := by
  simp only [cosine_similarity, sumsq, dot]
  norm_num

/-- C9 (amended): cosine_similarity returns 0.0 whenever either vector
is empty or has zero norm, never dividing by zero there; for non-empty
vectors of nonzero norm it returns dot(a,b) divided by the product of
the norms when the dimensions agree, and raises ValueError when they do
not.  sq abstracts the numpy square root: it must send 0 to 0 and
positive numbers to positive numbers. -/
theorem cosine_similarity_cases (sq : ℚ → ℚ) (h0 : sq 0 = 0)
    (hpos : ∀ q, 0 < q → 0 < sq q) (a b : List ℚ) :
    ((a = [] ∨ b = [] ∨ sumsq a = 0 ∨ sumsq b = 0) →
      cosine_similarity sq a b = .ok 0) ∧
    (a ≠ [] → b ≠ [] → sumsq a ≠ 0 → sumsq b ≠ 0 → a.length = b.length →
      cosine_similarity sq a b = .ok (dot a b / (sq (sumsq a) * sq (sumsq b)))) ∧
    (a ≠ [] → b ≠ [] → sumsq a ≠ 0 → sumsq b ≠ 0 → a.length ≠ b.length →
      cosine_similarity sq a b = .error PyErr.valueError) := by
  have hdenom : sumsq a ≠ 0 → sumsq b ≠ 0 → sq (sumsq a) * sq (sumsq b) ≠ 0 := by
    intro ha hb
    have ha' : 0 < sq (sumsq a) := hpos _ (lt_of_le_of_ne (sumsq_nonneg a) (Ne.symm ha))
    have hb' : 0 < sq (sumsq b) := hpos _ (lt_of_le_of_ne (sumsq_nonneg b) (Ne.symm hb))
    exact ne_of_gt (mul_pos ha' hb')
  refine ⟨?_, ?_, ?_⟩
  · rintro (rfl | rfl | ha | hb)
    · simp [cosine_similarity]
    · simp [cosine_similarity]
    · by_cases he : a.isEmpty || b.isEmpty
      · simp [cosine_similarity, he]
      · simp [cosine_similarity, he, ha, h0]
    · by_cases he : a.isEmpty || b.isEmpty
      · simp [cosine_similarity, he]
      · simp [cosine_similarity, he, hb, h0]
  · intro ha hb ha' hb' hlen
    have he : (a.isEmpty || b.isEmpty) = false := by
      simp [List.isEmpty_iff, ha, hb]
    simp [cosine_similarity, he, hdenom ha' hb', hlen]
  · intro ha hb ha' hb' hlen
    have he : (a.isEmpty || b.isEmpty) = false := by
      simp [List.isEmpty_iff, ha, hb]
    simp [cosine_similarity, he, hdenom ha' hb', hlen]

/-- C9 witness: the amended theorem applied with the identity square
root (which satisfies both constraints) to the concrete vectors [1, 2]
and [2, 1], giving the exact quotient 4/25. -/
theorem cosine_similarity_cases_witness :
    cosine_similarity (fun q => q) [1, 2] [2, 1] = .ok (4 / 25) := by
  have h := (cosine_similarity_cases (fun q => q) rfl (fun q hq => hq)
    [1, 2] [2, 1]).2.1 (by simp) (by simp)
    (by norm_num [sumsq]) (by norm_num [sumsq]) rfl
  rw [h]
  norm_num [dot, sumsq]

/-- C8: every row that save_resume actually stores has a cgpa that is
either absent or within [0, 10]; an input whose cgpa violates the range
is rejected by the CHECK constraint at the storage boundary (the INSERT
fails, the transaction is rolled back and the error is re-raised), so an
out-of-range value is never silently stored. -/
theorem save_resume_cgpa_range (encode : String → List ℚ) (d : ResumeData) :
    (∀ r, save_resume encode d = .ok r →
      r.cgpa = none ∨ ∃ x, r.cgpa = some x ∧ 0 ≤ x ∧ x ≤ 10) ∧
    (∀ x, d.cgpa = some x → (x < 0 ∨ 10 < x) →
      save_resume encode d = .error SaveErr.integrityError) := by
  constructor
  · intro r h
    by_cases hc : cgpaCheck d.cgpa
    · simp only [save_resume, if_pos hc, Except.ok.injEq] at h
      subst h
      cases hcg : d.cgpa with
      | none => exact Or.inl rfl
      | some x =>
        rw [hcg] at hc
        simp only [cgpaCheck, Bool.and_eq_true, decide_eq_true_eq] at hc
        exact Or.inr ⟨x, rfl, hc.1, hc.2⟩
    · simp only [save_resume, if_neg hc] at h
      exact absurd h (by simp)
  · intro x hx hout
    have hc : cgpaCheck d.cgpa = false := by
      rw [hx]
      simp only [cgpaCheck, Bool.and_eq_false_iff, decide_eq_false_iff_not, not_le]
      tauto
    simp [save_resume, hc]

/-- C8 witness: a record with cgpa 8 is stored with its cgpa inside the
range, and an input with cgpa 11 is rejected with an IntegrityError. -/
theorem save_resume_cgpa_range_witness :
    ((Resume.mk "n" (some 8)
        (.valid (.jobj [("technical", .jarr []), ("soft", .jarr [])]))
        (.valid (.jarr [])) .falsy 0).cgpa = none ∨
      ∃ x, (Resume.mk "n" (some 8)
        (.valid (.jobj [("technical", .jarr []), ("soft", .jarr [])]))
        (.valid (.jarr [])) .falsy 0).cgpa = some x ∧ 0 ≤ x ∧ x ≤ 10) ∧
    save_resume (fun _ => []) (ResumeData.mk "n" .jnull (.jarr []) (some 11) "")
      = .error SaveErr.integrityError := by
  constructor
  · refine (save_resume_cgpa_range (fun _ => [])
      (ResumeData.mk "n" .jnull (.jarr []) (some 8) "")).1 _ ?_
    simp only [save_resume, cgpaCheck, normalizeSkills, embed_text]
    norm_num
  · exact (save_resume_cgpa_range (fun _ => [])
      (ResumeData.mk "n" .jnull (.jarr []) (some 11) "")).2 11 rfl
      (Or.inr (by norm_num))

theorem lowerList_map_jstr (ts : List String) :
    lowerList (ts.map JValue.jstr) = .ok (ts.map pyLower) := by
  induction ts with
  | nil => rfl
  | cons t rest ih => simp [lowerList, ih, Except.map]

theorem contains_map_pyLower (ts : List String) (a : String) :
    (ts.map pyLower).contains a = ts.any (fun t => a == pyLower t) := by
  induction ts with
  | nil => rfl
  | cons t rest ih =>
    simp only [List.map_cons, List.contains_cons, List.any_cons, ih]

/-- C1 counterexample to never-raising: rank_resumes raises TypeError on
a record whose experience column holds the valid JSON number 5 (a value
storable through save_resume with experience = 5).  json.loads succeeds,
len(5) raises TypeError, and the except clause of the source catches
only json.JSONDecodeError, so the exception escapes to the caller. -/
theorem rank_resumes_raises_counterexample :
    rank_resumes none [Resume.mk "r" none .falsy (.valid (.jnum 5)) .falsy 0] 20
      = .error PyErr.typeError := rfl

/-- C1 (amended): for every record whose skills column parses to a JSON
object with an array of strings under the technical key (or no such key:
the get default applies) and whose experience column parses to a JSON
array, the rule-based ranker assigns exactly the score of the
specification, and a record whose two columns hold malformed JSON
contributes zero for both terms; however a record whose columns hold
valid JSON of the wrong shape (for example the number 5 as experience)
makes rank_resumes raise instead of counting zero. -/
theorem rank_resumes_score_formula (ps : List String) (nm : String)
    (cg : Option ℚ) (emb : StoredText) (hired : Nat) (es : List JValue)
    (fields : List (String × JValue)) (ts : List String)
    (htech : dictGet fields "technical" (.jarr []) = .jarr (ts.map JValue.jstr)) :
    ruleScore ps (Resume.mk nm cg (.valid (.jobj fields)) (.valid (.jarr es)) emb hired)
      = .ok (specRuleScore ps ts es.length cg) ∧
    ruleScore ps (Resume.mk nm cg .invalid .invalid emb hired)
      = .ok (specRuleScore ps [] 0 cg) := by
  have hcount : ∀ tech : List String,
      ps.countP (fun s => (tech.map pyLower).contains (pyLower s))
        = specMatchedSkillCount ps tech := by
    intro tech
    rw [specMatchedSkillCount, List.countP_eq_length_filter]
    congr 1
    apply List.filter_congr
    intro s _
    exact contains_map_pyLower tech (pyLower s)
  constructor
  · simp only [ruleScore, expEntries, pyLen, techSkills, htech, lowerElems,
      lowerList_map_jstr, Except.bind, bind, pure, Except.pure]
    rw [specRuleScore, ← hcount ts, cgpaOrZero_eq_getD]
  · simp only [ruleScore, expEntries, techSkills, Except.bind, bind, pure, Except.pure]
    rw [specRuleScore, ← hcount [], cgpaOrZero_eq_getD]
    simp [specMatchedSkillCount]

/-- C1 witness: the fixture of the specification, a record with CGPA
9.0, two matched preferred skills and three experience entries, scores
9.0 * 2 + 2 * 3 + 3 = 27. -/
theorem rank_resumes_score_formula_witness :
    ruleScore ["AI", "ML"]
      (Resume.mk "w" (some 9)
        (.valid (.jobj [("technical", .jarr [.jstr "ai", .jstr "ml", .jstr "python"])]))
        (.valid (.jarr [.jnull, .jnull, .jnull])) .falsy 0)
      = .ok 27 := by
  have h := (rank_resumes_score_formula ["AI", "ML"] "w" (some 9) .falsy 0
    [.jnull, .jnull, .jnull]
    [("technical", .jarr [.jstr "ai", .jstr "ml", .jstr "python"])]
    ["ai", "ml", "python"] (by rfl)).1
  rw [h]
  have hc : specMatchedSkillCount ["AI", "ML"] ["ai", "ml", "python"] = 2 := by decide
  simp only [specRuleScore, hc]
  norm_num

theorem collectScores_mem (sq : ℚ → ℚ) (jd : List ℚ) (minSim : ℚ) :
    ∀ (l : List Resume) (res : List (Resume × ℚ)),
      collectScores sq jd minSim l = .ok res →
      ∀ p ∈ res, minSim ≤ p.2 ∧
        ∃ xs, p.1.embedding = StoredText.valid (JValue.jarr xs) ∧
          cosinePy sq jd xs = .ok p.2 := by
  intro l
  induction l with
  | nil =>
    intro res h p hp
    simp only [collectScores, Except.ok.injEq] at h
    subst h
    exact absurd hp (List.not_mem_nil p)
  | cons r rs ih =>
    intro res h p hp
    obtain ⟨nm, cg, sk, ex, em, hi⟩ := r
    cases em with
    | falsy => exact ih res h p hp
    | invalid => exact ih res h p hp
    | valid v =>
      cases v with
      | jnull => exact ih res h p hp
      | jbool b => exact ih res h p hp
      | jnum q => exact ih res h p hp
      | jstr s => exact ih res h p hp
      | jobj fs => exact ih res h p hp
      | jarr xs =>
        cases hc : cosinePy sq jd xs with
        | ok s =>
          simp only [collectScores, hc] at h
          by_cases hle : minSim ≤ s
          · rw [if_pos hle] at h
            cases hrest : collectScores sq jd minSim rs with
            | ok rest =>
              rw [hrest] at h
              simp only [Except.map, Except.ok.injEq] at h
              subst h
              rcases List.mem_cons.mp hp with rfl | hp'
              · exact ⟨hle, xs, rfl, hc⟩
              · exact ih rest hrest p hp'
            | error e =>
              rw [hrest] at h
              exact absurd h (by simp [Except.map])
          · rw [if_neg hle] at h
            exact ih res h p hp
        | error e =>
          cases e with
          | typeError =>
            simp only [collectScores, hc] at h
            exact ih res h p hp
          | valueError =>
            simp only [collectScores, hc] at h
            exact absurd h (by simp)
          | attributeError =>
            simp only [collectScores, hc] at h
            exact absurd h (by simp)
          | keyError =>
            simp only [collectScores, hc] at h
            exact absurd h (by simp)

/-- C2: for every query and every database state, match_job_description
returns a sequence sorted non-increasing by score, every returned score
is at least min_similarity (the boundary score is kept by the
greater-or-equal filter), and the length is at most top_n. -/
theorem match_job_description_sorted_filtered_bounded (encode : String → List ℚ)
    (sq : ℚ → ℚ) (jd_text : String) (db : List Resume) (top_n : Nat) (minSim : ℚ) :
    SortedByDesc (fun p => p.2) (match_job_description encode sq jd_text db top_n minSim) ∧
    (∀ p ∈ match_job_description encode sq jd_text db top_n minSim, minSim ≤ p.2) ∧
    (match_job_description encode sq jd_text db top_n minSim).length ≤ top_n := by
  unfold match_job_description
  by_cases h1 : (pyStrip jd_text).isEmpty
  · simp [h1]
  · rw [if_neg (by simp [h1])]
    by_cases h2 : (embed_text encode jd_text).isEmpty
    · simp [h2]
    · rw [if_neg (by simp [h2])]
      by_cases h3 : (db.filter hasEmbeddingText).isEmpty
      · simp [h3]
      · rw [if_neg (by simp [h3])]
        cases hc : collectScores sq (embed_text encode jd_text) minSim
            (db.filter hasEmbeddingText) with
        | error e => simp
        | ok scored =>
          refine ⟨?_, ?_, ?_⟩
          · exact (sorted_sortDesc (fun p => p.2) scored).sublist
              (List.take_sublist top_n _)
          · intro p hp
            have hp2 : p ∈ sortDesc (fun p => p.2) scored :=
              List.take_subset top_n _ hp
            have hp3 : p ∈ scored := (mem_sortDesc _ scored p).mp hp2
            exact (collectScores_mem sq _ minSim _ scored hc p hp3).1
          · calc ((sortDesc (fun p => p.2) scored).take top_n).length
                ≤ top_n := List.length_take_le top_n _

/-- Evaluation of match_job_description on a concrete one-record store
whose similarity is exactly the threshold 1; shared by the witnesses of
the search properties below. -/
theorem match_job_description_concrete_eval :
    match_job_description (fun _ => [1]) (fun q => q) "j"
      [Resume.mk "w" none .falsy .falsy (.valid (.jarr [.jnum 1])) 0] 10 1
      = [(Resume.mk "w" none .falsy .falsy (.valid (.jarr [.jnum 1])) 0, 1)] := by
  have e3 : cosine_similarity (fun q => q) [1] [1] = .ok 1 := by
    simp only [cosine_similarity, sumsq, dot]
    norm_num
  have e4 : cosinePy (fun q => q) [1] [.jnum 1] = .ok 1 := by
    have hred : cosinePy (fun q => q) [1] [.jnum 1]
        = cosine_similarity (fun q => q) [1] (numVals [.jnum 1]) := rfl
    rw [hred]
    exact e3
  have e5 : collectScores (fun q => q) [1] 1
      [Resume.mk "w" none .falsy .falsy (.valid (.jarr [.jnum 1])) 0]
      = .ok [(Resume.mk "w" none .falsy .falsy (.valid (.jarr [.jnum 1])) 0, 1)] := by
    simp only [collectScores, e4, le_refl, if_true, Except.map]
  rw [match_job_description, if_neg (by decide)]
  rw [if_neg (by decide)]
  rw [if_neg (by decide)]
  have hfilter : ([Resume.mk "w" none .falsy .falsy (.valid (.jarr [.jnum 1])) 0]).filter
      hasEmbeddingText
      = [Resume.mk "w" none .falsy .falsy (.valid (.jarr [.jnum 1])) 0] := rfl
  have hemb : embed_text (fun _ : String => [(1 : ℚ)]) "j" = [1] := rfl
  rw [hemb, hfilter, e5]
  rfl

/-- C2 witness: a concrete store with one numerically embedded record
and a query whose similarity is exactly the threshold 1; the record is
kept (inclusive boundary) and every returned score is at least the
threshold. -/
theorem match_job_sorted_filtered_bounded_witness :
    match_job_description (fun _ => [1]) (fun q => q) "j"
      [Resume.mk "w" none .falsy .falsy (.valid (.jarr [.jnum 1])) 0] 10 1
      = [(Resume.mk "w" none .falsy .falsy (.valid (.jarr [.jnum 1])) 0, 1)] ∧
    (∀ p ∈ match_job_description (fun _ => [1]) (fun q => q) "j"
      [Resume.mk "w" none .falsy .falsy (.valid (.jarr [.jnum 1])) 0] 10 1,
      (1 : ℚ) ≤ p.2) :=
  ⟨match_job_description_concrete_eval,
    (match_job_description_sorted_filtered_bounded
      (fun _ => [1]) (fun q => q) "j"
      [Resume.mk "w" none .falsy .falsy (.valid (.jarr [.jnum 1])) 0] 10 1).2.1⟩

/-- C3 counterexample: a record whose embedding is a JSON array of
arrays, hence not a list of numbers, appears in the output of the
similarity search.  With a query embedding of dimension n (here 1) and
a stored embedding of n singleton numeric arrays, np.array builds an
(n, 1) float matrix, its Frobenius norm is nonzero so the denominator
check passes, np.dot of the (n,) query against the (n, 1) matrix is a
valid product of shape (1,), and float() converts the size-1 result, so
the record is scored and returned rather than skipped. -/
theorem match_job_nested_array_counterexample :
    match_job_description (fun _ => [1]) (fun q => q) "j"
      [Resume.mk "n2" none .falsy .falsy (.valid (.jarr [.jarr [.jnum 1]])) 0] 10 0
      = [(Resume.mk "n2" none .falsy .falsy (.valid (.jarr [.jarr [.jnum 1]])) 0, 1)] ∧
    ([JValue.jarr [JValue.jnum 1]].all (fun v => (jnumVal v).isSome)) = false := by
  constructor
  · have e3 : cosinePy (fun q => q) [1] [.jarr [.jnum 1]] = .ok 1 := by
      have hred : cosinePy (fun q => q) [1] [.jarr [.jnum 1]]
          = (if (sumsq [1] * sumsq (numVals [JValue.jnum 1]) : ℚ) = 0 then Except.ok 0
             else Except.ok (dot [1] (numVals [JValue.jnum 1])
               / (sumsq [1] * sumsq (numVals [JValue.jnum 1])))) := rfl
      rw [hred]
      simp only [numVals, List.filterMap_cons, List.filterMap_nil, jnumVal]
      norm_num [sumsq, dot]
    have e5 : collectScores (fun q => q) [1] 0
        [Resume.mk "n2" none .falsy .falsy (.valid (.jarr [.jarr [.jnum 1]])) 0]
        = .ok [(Resume.mk "n2" none .falsy .falsy
            (.valid (.jarr [.jarr [.jnum 1]])) 0, 1)] := by
      simp only [collectScores, e3]
      rw [if_pos (by norm_num)]
      simp [Except.map]
    rw [match_job_description, if_neg (by decide)]
    rw [if_neg (by decide)]
    rw [if_neg (by decide)]
    have hfilter : ([Resume.mk "n2" none .falsy .falsy
        (.valid (.jarr [.jarr [.jnum 1]])) 0]).filter hasEmbeddingText
        = [Resume.mk "n2" none .falsy .falsy (.valid (.jarr [.jarr [.jnum 1]])) 0] := rfl
    have hemb : embed_text (fun _ : String => [(1 : ℚ)]) "j" = [1] := rfl
    rw [hemb, hfilter, e5]
    rfl
  · rfl

/-- C3 (amended): every pair returned by match_job_description carries
a record whose embedding column holds valid JSON that is a list.  A
record whose embedding is absent (NULL or the empty string), is not
valid JSON, or parses to a non-list value never appears in any search
result, even if its raw_text is non-empty: such records are excluded,
never zero-padded.  The further exclusion the original claim asserted,
of lists that are not lists of numbers, is false on the code: see the
nested-array counterexample, where an array of singleton arrays is
scored by np.dot as a matrix product and returned. -/
theorem match_job_embeddings_are_arrays (encode : String → List ℚ)
    (sq : ℚ → ℚ) (jd_text : String) (db : List Resume) (top_n : Nat) (minSim : ℚ)
    (p : Resume × ℚ)
    (hp : p ∈ match_job_description encode sq jd_text db top_n minSim) :
    ∃ xs, p.1.embedding = StoredText.valid (JValue.jarr xs) := by
  unfold match_job_description at hp
  by_cases h1 : (pyStrip jd_text).isEmpty
  · simp [h1] at hp
  · rw [if_neg (by simp [h1])] at hp
    by_cases h2 : (embed_text encode jd_text).isEmpty
    · simp [h2] at hp
    · rw [if_neg (by simp [h2])] at hp
      by_cases h3 : (db.filter hasEmbeddingText).isEmpty
      · simp [h3] at hp
      · rw [if_neg (by simp [h3])] at hp
        cases hc : collectScores sq (embed_text encode jd_text) minSim
            (db.filter hasEmbeddingText) with
        | error e =>
          rw [hc] at hp
          exact absurd hp (List.not_mem_nil p)
        | ok scored =>
          rw [hc] at hp
          have hp2 : p ∈ scored :=
            (mem_sortDesc _ scored p).mp (List.take_subset top_n _ hp)
          obtain ⟨_, xs, hemb, _⟩ :=
            collectScores_mem sq _ minSim _ scored hc p hp2
          exact ⟨xs, hemb⟩

/-- C3 witness: the amended theorem applied to the member of a concrete
non-empty result, exhibiting the JSON array behind it. -/
theorem match_job_embeddings_are_arrays_witness :
    ∃ xs,
      ((Resume.mk "w" none .falsy .falsy (.valid (.jarr [.jnum 1])) 0,
        (1 : ℚ)) : Resume × ℚ).1.embedding
        = StoredText.valid (JValue.jarr xs) := by
  refine match_job_embeddings_are_arrays (fun _ => [1]) (fun q => q) "j"
    [Resume.mk "w" none .falsy .falsy (.valid (.jarr [.jnum 1])) 0] 10 1
    (Resume.mk "w" none .falsy .falsy (.valid (.jarr [.jnum 1])) 0, 1) ?_
  rw [match_job_description_concrete_eval]
  exact List.mem_singleton.mpr rfl
